import Mathlib

/-!
Verification of the qualifying-area determination logic of the
rmi-energy-communities repository (Catalyst Cooperative / RMI).

The repository identifies U.S. geographic areas qualifying as "energy
communities" under the Inflation Reduction Act.  The definitions below are a
shallow embedding of the code present in the repository snapshot: the two
notebooks (`coal_comm_viz.ipynb`, `naics_code_updates.ipynb`), the README and
`pyproject.toml`.  Dataframes are embedded as lists of records; pandas `NaN`
cells are embedded as `none`; `drop_duplicates` is `List.dedup` (both collapse
a column to its distinct values, treating `NaN`/`none` as equal), and boolean
row selection is `List.filter`.
-/

set_option autoImplicit false

namespace EnergyComms

/-- The geography granularity accepted by the command line arguments
`--coal_area` and `--brownfields_area` (README: options are `tract` and
`county`). -/
inductive AreaType
  | tract
  | county
deriving DecidableEq

/-- The command line flags documented in the README section
"Command Line Arguments". Modelled from the spec: the `energy_comms.cli`
module itself is not in the repository snapshot; the README documents exactly
these four flags for the installed console scripts. -/
inductive CliFlag
  | coal_area
  | brownfields_area
  | update_employment_data
  | output_filepath
deriving DecidableEq

/-- The four flags the README documents for the console scripts. -/
def documented_cli_flags : List CliFlag :=
  [CliFlag.coal_area, CliFlag.brownfields_area,
   CliFlag.update_employment_data, CliFlag.output_filepath]

/-- The flag set asserted by the spec sentence under scrutiny (geography
granularity and output path only); stated separately so it can be compared
with `documented_cli_flags`. -/
def claimed_cli_flags : List CliFlag :=
  [CliFlag.coal_area, CliFlag.brownfields_area, CliFlag.output_filepath]

/-- Modelled from the spec: README — the area arguments are restricted to the
values `tract` and `county`; any other string is rejected by the argument
parsing of the missing `energy_comms.cli` module. -/
def parse_area_arg (s : String) : Option AreaType :=
  if s = ("tract") then some AreaType.tract
  else if s = ("county") then some AreaType.county
  else none

/-- Modelled from the spec: README — "The default value for this argument is
tract" for `--coal_area`. -/
def default_coal_area : AreaType := AreaType.tract

/-- Modelled from the spec: README — "The default value is tract" for
`--brownfields_area`. -/
def default_brownfields_area : AreaType := AreaType.tract

/-- A row of a coal-closure dataframe (`msha_df` / `eia_df` in
`coal_comm_viz.ipynb`): the columns read by `get_df_stats` and by the
combine cell.  `id_fips` embeds the `f"{census_geom}_id_fips"` column
(`tract_id_fips` or `county_id_fips` depending on the `census_geom`
argument); `latitude` / `longitude` are only ever compared for equality by
`drop_duplicates`, so an opaque type with decidable equality suffices, with
`none` for `NaN` (pandas `drop_duplicates` treats `NaN` cells as equal, as
`none = none` does here). -/
structure ClosureRecord where
  latitude : Option Int
  longitude : Option Int
  id_fips : String
  adjacent_id_fips : List String
deriving DecidableEq

/-- pandas `Series.explode` applied to one list-valued cell of the
`adjacent_id_fips` column: an empty list explodes to a single `NaN` cell,
a non-empty list to one cell per element. -/
def explodeCell : List String → List (Option String)
  | [] => [none]
  | adj => adj.map some

/-- The concatenated area column
`pd.concat([df[f"{census_geom}_id_fips"], df.adjacent_id_fips.explode()])`
built both in `get_df_stats` and in the combine cells of
`coal_comm_viz.ipynb`. -/
def area_column_raw (df : List ClosureRecord) : List (Option String) :=
  (df.map fun r => some r.id_fips) ++ df.flatMap fun r => explodeCell r.adjacent_id_fips

/-- `get_df_stats(df, census_geom)` from `coal_comm_viz.ipynb`: the number of
distinct (latitude, longitude) pairs, the number of distinct primary FIPS
codes, and the number of distinct values of the primary column concatenated
with the exploded adjacency column.  `len(s.drop_duplicates())` is
`List.dedup.length`. -/
def get_df_stats (df : List ClosureRecord) : Nat × Nat × Nat :=
  ((df.map fun r => (r.latitude, r.longitude)).dedup.length,
   (df.map fun r => r.id_fips).dedup.length,
   (area_column_raw df).dedup.length)

/-- The distinct values of the combined area column, i.e.
`pd.concat([df[fips_col], df.adjacent_id_fips.explode()]).drop_duplicates()`:
the qualifying areas of a closure dataframe (primary areas plus adjacent
areas), as counted by `n_all_geoms` in `coal_comm_viz.ipynb`. -/
def qualifyingAreas (df : List ClosureRecord) : List (Option String) :=
  (area_column_raw df).dedup

/-- The set of FIPS codes among the qualifying areas (the non-`NaN` cells of
`qualifyingAreas`). -/
def qualifying_fips (df : List ClosureRecord) : Finset String :=
  ((qualifyingAreas df).filterMap id).toFinset

/-- A row of the transformed QCEW dataframe in `naics_code_updates.ipynb`
("each record representing a unique year, county, and NAICS code combo"):
the columns the notebook reads are `industry_code` and `area_title`, plus the
year. -/
structure QcewRow where
  industry_code : String
  area_title : String
  year : Nat
deriving DecidableEq

/-- `ALL_FOSSIL_NAICS_CODES` from `naics_code_updates.ipynb`: all NAICS codes
from the new and the old guidance. -/
def ALL_FOSSIL_NAICS_CODES : List String :=
  [("211"), ("2121"), ("213111"), ("213112"), ("213113"), ("32411"),
   ("4861"), ("4862"), ("213"), ("23712"), ("486"), ("4247"), ("22112")]

/-- `NAICS_CODES_TO_CONSIDER` from `naics_code_updates.ipynb`: the new
guidance codes plus `"22112"`. -/
def NAICS_CODES_TO_CONSIDER : List String :=
  [("211"), ("2121"), ("213111"), ("213112"), ("213113"), ("32411"),
   ("4861"), ("4862"), ("22112")]

/-- The boolean-mask row selection
`qcew_df[qcew_df.industry_code.isin(["10"] + codes)]`, with the fossil NAICS
code list as the parameter that the notebook varies (it is also the
`fossil_naics_codes` argument of `transform_qcew_data`). -/
def filter_by_fossil_codes (codes : List String) (df : List QcewRow) : List QcewRow :=
  df.filter fun r => r.industry_code ∈ [("10")] ++ codes

/-- `filtered_qcew_df` from `naics_code_updates.ipynb`:
`qcew_df[qcew_df.industry_code.isin(["10"] + NAICS_CODES_TO_CONSIDER)]`. -/
def filtered_qcew_df (df : List QcewRow) : List QcewRow :=
  filter_by_fossil_codes NAICS_CODES_TO_CONSIDER df

/-- The per-year QCEW assembly loop of `naics_code_updates.ipynb`:
starting from an empty dataframe, for each year extract that year's data,
`continue` if it is empty, otherwise transform it and concatenate it onto the
accumulator.  `QCEW_YEARS` and the extract/transform functions live in the
`energy_comms` package outside the snapshot, so they are parameters here. -/
def qcew_assembly (years : List Nat) (extract_qcew_data : Nat → List QcewRow)
    (transform_qcew_data : List QcewRow → List QcewRow) : List QcewRow :=
  years.foldl
    (fun qcew_df year =>
      if (extract_qcew_data year).isEmpty then qcew_df
      else qcew_df ++ transform_qcew_data (extract_qcew_data year))
    []

/-- One invocation of a console script, with the arguments documented in the
README.  Modelled from the spec: the `energy_comms.cli` module is not in the
repository snapshot. -/
structure CliInvocation where
  coal_area : AreaType
  brownfields_area : AreaType
  update_employment_data : Bool
  output_filepath : String

/-- A row of the output dataframe, with the columns documented in the README
section "Output Dataframe Columns" (geometry and coordinate columns omitted:
they are only carried along, never branched on). -/
structure OutputRow where
  county_id_fips : String
  county_name : String
  state_id_fips : String
  tract_id_fips : Option String
  geoid : String
  site_name : String
  qualifying_criteria : String
  qualifying_area : String
deriving DecidableEq

/-- A file persisted by a run: the README documents exactly one kind, the
pickled output dataframe. -/
inductive Artifact
  | pickledDataFrame (df : List OutputRow)
deriving DecidableEq

/-- Modelled from the spec: the persistence behaviour of the console scripts
(the `energy_comms.cli` module is not in the snapshot).  README:
"`--output_filepath`: Absolute or relative file path to save the pickled
output dataframe"; spec: "output is a single serialized dataframe file".
A successful run persists the `(path, artifact)` pairs returned here and
nothing else. -/
def run_cli_persisted (args : CliInvocation) (result_df : List OutputRow) :
    List (String × Artifact) :=
  [(args.output_filepath, Artifact.pickledDataFrame result_df)]

/-! ## Helper lemmas -/

/-- A FIPS code appears in an exploded adjacency cell exactly when it appears
in the original list: the `NaN` produced for an empty list is not a FIPS
code. -/
theorem some_mem_explodeCell {a : String} {adj : List String} :
    some a ∈ explodeCell adj ↔ a ∈ adj := by
  cases adj with
  | nil => simp [explodeCell]
  | cons x xs => simp [explodeCell]

/-- Membership in the qualifying-FIPS set, unfolded to the closure records. -/
theorem mem_qualifying_fips {df : List ClosureRecord} {a : String} :
    a ∈ qualifying_fips df ↔
      (∃ r ∈ df, r.id_fips = a) ∨ ∃ r ∈ df, a ∈ r.adjacent_id_fips := by
  simp only [qualifying_fips, qualifyingAreas, area_column_raw, List.mem_toFinset,
    List.mem_filterMap, id_eq, List.mem_dedup, List.mem_append, List.mem_map,
    List.mem_flatMap]
  constructor
  · rintro ⟨x, hx | hx, rfl⟩
    · rcases hx with ⟨r, hr, h⟩
      exact Or.inl ⟨r, hr, Option.some_injective _ h⟩
    · rcases hx with ⟨r, hr, h⟩
      exact Or.inr ⟨r, hr, some_mem_explodeCell.mp h⟩
  · rintro (⟨r, hr, h⟩ | ⟨r, hr, h⟩)
    · exact ⟨some a, Or.inl ⟨r, hr, by rw [h]⟩, rfl⟩
    · exact ⟨some a, Or.inr ⟨r, hr, some_mem_explodeCell.mpr h⟩, rfl⟩

/-- The assembly loop, rewritten from a fold to the concatenation over the
years whose extraction is non-empty, in order. -/
theorem qcew_assembly_eq_flatMap (years : List Nat) (ex : Nat → List QcewRow)
    (tr : List QcewRow → List QcewRow) :
    qcew_assembly years ex tr
      = (years.filter fun y => !(ex y).isEmpty).flatMap fun y => tr (ex y) := by
  have go : ∀ (ys : List Nat) (acc : List QcewRow),
      ys.foldl
        (fun qcew_df year =>
          if (ex year).isEmpty then qcew_df else qcew_df ++ tr (ex year)) acc
        = acc ++ (ys.filter fun y => !(ex y).isEmpty).flatMap fun y => tr (ex y) := by
    intro ys
    induction ys with
    | nil => intro acc; simp
    | cons y ys ih =>
      intro acc
      simp only [List.foldl_cons, List.filter_cons]
      by_cases h : (ex y).isEmpty = true
      · rw [if_pos h, h, ih]
        rfl
      · have h' : (ex y).isEmpty = false := by
          revert h
          cases (ex y).isEmpty <;> simp
        rw [if_neg h, h', ih]
        simp [List.append_assoc]
  simpa only [qcew_assembly, List.nil_append] using go years []

/-- Removing from the year list an element on which the filter is false does
not change the filtered list. -/
theorem filter_erase_all_of_false {p : Nat → Bool} {y : Nat} (hp : p y = false)
    (l : List Nat) :
    (l.filter fun z => z ≠ y).filter p = l.filter p := by
  rw [List.filter_filter]
  apply List.filter_congr
  intro a _
  by_cases hay : a = y
  · subst hay
    simp [hp]
  · simp [hay]

/-! ## Claims -/

/-- Claim C1: the qualifying-area determination performs geographic adjacency
expansion — the set of qualifying FIPS codes of a closure dataframe equals
the distinct primary FIPS codes united with every FIPS code appearing in an
`adjacent_id_fips` list, so an area directly adjoining a closure area also
qualifies. -/
theorem qualifying_areas_adjacency_expansion (df : List ClosureRecord) :
    qualifying_fips df
      = (df.map fun r => r.id_fips).toFinset
          ∪ (df.flatMap fun r => r.adjacent_id_fips).toFinset ∧
    ∀ r ∈ df, ∀ a ∈ r.adjacent_id_fips, a ∈ qualifying_fips df := by
  constructor
  · ext a
    rw [mem_qualifying_fips]
    simp [List.mem_flatMap]
  · intro r hr a ha
    exact mem_qualifying_fips.mpr (Or.inr ⟨r, hr, ha⟩)

/-- Witness for C1 at a concrete input: a tract adjacent to a closure tract
is in the qualifying set. -/
theorem qualifying_areas_adjacency_expansion_witness :
    ("01001020200") ∈ qualifying_fips [⟨none, none, ("01001020100"), [("01001020200")]⟩] :=
  (qualifying_areas_adjacency_expansion
      [⟨none, none, ("01001020100"), [("01001020200")]⟩]).2
    ⟨none, none, ("01001020100"), [("01001020200")]⟩ (by simp)
    ("01001020200") (by simp)

/-- Claim C8: `get_df_stats` returns a triple whose third component (distinct
count of the primary FIPS column concatenated with the exploded adjacency
lists) is at least its second component (distinct count of the primary FIPS
column alone). -/
theorem get_df_stats_all_ge_primary (df : List ClosureRecord) :
    (get_df_stats df).2.1 ≤ (get_df_stats df).2.2 := by
  show (df.map fun r => r.id_fips).dedup.length ≤ (area_column_raw df).dedup.length
  rw [← List.card_toFinset, ← List.card_toFinset, area_column_raw, List.toFinset_append]
  calc (df.map fun r => r.id_fips).toFinset.card
      = ((df.map fun r => r.id_fips).toFinset.image some).card :=
        (Finset.card_image_of_injective _ (Option.some_injective _)).symm
    _ = (df.map fun r => some r.id_fips).toFinset.card := by
        congr 1
        ext b
        simp
    _ ≤ _ := Finset.card_le_card Finset.subset_union_left

/-- Claim C2 counterexample: the README documents the flag
`--update_employment_data` for the console scripts, which is not in the
claimed flag set (geography granularity and output path only). -/
theorem cli_flags_counterexample :
    CliFlag.update_employment_data ∈ documented_cli_flags ∧
    CliFlag.update_employment_data ∉ claimed_cli_flags := by
  decide

/-- Claim C2 as amended: the console scripts accept the claimed flags
(`--coal_area`, `--brownfields_area`, `--output_filepath`) plus one more,
`--update_employment_data`; the area arguments accept only the values
`tract` and `county` and default to `tract`. -/
theorem cli_flags_amended :
    documented_cli_flags.toFinset
      = insert CliFlag.update_employment_data claimed_cli_flags.toFinset ∧
    default_coal_area = AreaType.tract ∧
    default_brownfields_area = AreaType.tract ∧
    parse_area_arg ("tract") = some AreaType.tract ∧
    parse_area_arg ("county") = some AreaType.county ∧
    ∀ s a, parse_area_arg s = some a → (s = ("tract") ∨ s = ("county")) := by
  refine ⟨by decide, rfl, rfl, by decide, by decide, ?_⟩
  intro s a h
  by_cases h1 : s = ("tract")
  · exact Or.inl h1
  by_cases h2 : s = ("county")
  · exact Or.inr h2
  rw [parse_area_arg, if_neg h1, if_neg h2] at h
  exact absurd h (Option.noConfusion)

/-- Witness for the amended C2 at the concrete argument value `tract`. -/
theorem cli_flags_amended_witness :
    parse_area_arg ("tract") = some AreaType.tract ∧
    (("tract") = ("tract") ∨ ("tract") = ("county")) :=
  ⟨by decide, cli_flags_amended.2.2.2.2.2 ("tract") AreaType.tract (by decide)⟩

/-- Claim C3: a successful invocation with an `--output_filepath` argument
persists exactly one artifact, the pickled output dataframe at that path,
and nothing else. -/
theorem cli_output_single_file (args : CliInvocation) (result : List OutputRow) :
    (run_cli_persisted args result).length = 1 ∧
    ∀ pa ∈ run_cli_persisted args result,
      pa.1 = args.output_filepath ∧ pa.2 = Artifact.pickledDataFrame result := by
  refine ⟨rfl, ?_⟩
  intro pa hpa
  rw [run_cli_persisted, List.mem_singleton] at hpa
  rw [hpa]
  exact ⟨rfl, rfl⟩

/-- Witness for C3 at a concrete invocation. -/
theorem cli_output_single_file_witness :
    ((("out.pkl"), Artifact.pickledDataFrame ([] : List OutputRow))).1 = ("out.pkl") ∧
    ((("out.pkl"), Artifact.pickledDataFrame ([] : List OutputRow))).2
      = Artifact.pickledDataFrame [] :=
  (cli_output_single_file
      ⟨AreaType.tract, AreaType.tract, false, ("out.pkl")⟩ []).2
    (("out.pkl"), Artifact.pickledDataFrame []) (by simp [run_cli_persisted])

/-- Claim C4 counterexample: the fossil NAICS code set is not a fixed
constant of the qualifying computation — the QCEW filter takes it as a
parameter, and the two code lists of `naics_code_updates.ipynb` give
different qualifying rows on the same input (industry code `213` is in the
old-guidance list but not in `NAICS_CODES_TO_CONSIDER`). -/
theorem fossil_codes_counterexample :
    ("213") ∈ ALL_FOSSIL_NAICS_CODES ∧
    ("213") ∉ NAICS_CODES_TO_CONSIDER ∧
    filter_by_fossil_codes ALL_FOSSIL_NAICS_CODES [⟨("213"), ("A"), 2010⟩]
      = [⟨("213"), ("A"), 2010⟩] ∧
    filter_by_fossil_codes NAICS_CODES_TO_CONSIDER [⟨("213"), ("A"), 2010⟩] = [] := by
  decide

/-- Claim C4 as amended: the fossil-fuel NAICS code set is accepted as a
parameter (`fossil_naics_codes`) by the QCEW transform and filter, and
varying it changes which rows qualify: any row with industry code `213` is
kept under the old-guidance list and dropped under
`NAICS_CODES_TO_CONSIDER`. -/
theorem fossil_codes_parameter_dependence (r : QcewRow)
    (h : r.industry_code = ("213")) :
    filter_by_fossil_codes ALL_FOSSIL_NAICS_CODES [r] = [r] ∧
    filter_by_fossil_codes NAICS_CODES_TO_CONSIDER [r] = [] := by
  constructor
  · rw [filter_by_fossil_codes, List.filter_cons, h]
    simp [ALL_FOSSIL_NAICS_CODES]
  · rw [filter_by_fossil_codes, List.filter_cons, h]
    simp [NAICS_CODES_TO_CONSIDER]

/-- Witness for the amended C4 at a concrete QCEW row. -/
theorem fossil_codes_parameter_dependence_witness :
    filter_by_fossil_codes ALL_FOSSIL_NAICS_CODES [⟨("213"), ("B"), 2015⟩]
      = [⟨("213"), ("B"), 2015⟩] ∧
    filter_by_fossil_codes NAICS_CODES_TO_CONSIDER [⟨("213"), ("B"), 2015⟩] = [] :=
  fossil_codes_parameter_dependence ⟨("213"), ("B"), 2015⟩ rfl

/-- Claim C5: no invariant beyond relational-style uniqueness is enforced by
custom code.  The only collapsing the pipeline operations perform is
`drop_duplicates` (`dedup`): the qualifying-area column keeps exactly the
members of the raw concatenated column (no key, range, or referential check
removes a value), the QCEW filter only selects rows (a sublist, never a
modification or rejection of the input), and the operations are total even
on pathological records — duplicate keys, a malformed FIPS string, and a
self-referential adjacency list are processed by plain dataframe
semantics. -/
theorem no_custom_invariant_checks :
    (∀ (df : List ClosureRecord) (a : Option String),
      a ∈ qualifyingAreas df ↔ a ∈ area_column_raw df) ∧
    (∀ (codes : List String) (df : List QcewRow),
      (filter_by_fossil_codes codes df).Sublist df) ∧
    get_df_stats
      [⟨none, none, ("XYZ"), [("XYZ"), ("XYZ")]⟩,
       ⟨some 1, some 2, ("XYZ"), []⟩,
       ⟨some 1, some 2, ("XYZ"), []⟩] = (2, 1, 2) := by
  refine ⟨fun df a => ?_, fun codes df => List.filter_sublist df, by decide⟩
  rw [qualifyingAreas]
  exact List.mem_dedup

/-- Claim C6 counterexample: the per-year QCEW assembly loop does perform
partial-failure handling — given an extraction in which year 0 is missing
(empty dataframe), the loop skips it and continues, producing the transform
of the remaining year instead of surfacing a failure. -/
theorem assembly_skip_counterexample :
    (fun y => if y = 0 then ([] : List QcewRow) else [⟨("10"), ("X"), 2010⟩]) 0 = [] ∧
    qcew_assembly [0, 1]
      (fun y => if y = 0 then ([] : List QcewRow) else [⟨("10"), ("X"), 2010⟩]) id
      = [⟨("10"), ("X"), 2010⟩] := by
  decide

/-- Claim C6 as amended: no operation catches, retries, or recovers from an
exception, but one piece of partial-failure handling exists — the QCEW
assembly loop skips any year whose extraction returns an empty dataframe and
continues with the remaining years, yielding the same result as if the
empty year were absent from the year list. -/
theorem assembly_skips_empty_years (years : List Nat) (ex : Nat → List QcewRow)
    (tr : List QcewRow → List QcewRow) (y : Nat) (h : (ex y).isEmpty = true) :
    qcew_assembly years ex tr = qcew_assembly (years.filter fun z => z ≠ y) ex tr := by
  rw [qcew_assembly_eq_flatMap, qcew_assembly_eq_flatMap,
    filter_erase_all_of_false (by rw [h]; rfl)]

/-- Witness for the amended C6: skipping the empty year 0 from a two-year
list leaves the result of the loop unchanged. -/
theorem assembly_skips_empty_years_witness :
    qcew_assembly [0, 1]
      (fun y => if y = 0 then ([] : List QcewRow) else [⟨("10"), ("X"), 2010⟩]) id
      = qcew_assembly ([0, 1].filter fun z => z ≠ 0)
        (fun y => if y = 0 then ([] : List QcewRow) else [⟨("10"), ("X"), 2010⟩]) id :=
  assembly_skips_empty_years [0, 1]
    (fun y => if y = 0 then ([] : List QcewRow) else [⟨("10"), ("X"), 2010⟩]) id 0
    (by decide)

/-- Claim C7: the qualifying-area determination is deterministic in its
input snapshot — two runs on equal closure dataframes produce the same
qualifying-area row count, the same set of FIPS codes, and the same summary
statistics. -/
theorem pipeline_deterministic (df₁ df₂ : List ClosureRecord) (h : df₁ = df₂) :
    (qualifyingAreas df₁).length = (qualifyingAreas df₂).length ∧
    qualifying_fips df₁ = qualifying_fips df₂ ∧
    get_df_stats df₁ = get_df_stats df₂ := by
  subst h
  exact ⟨rfl, rfl, rfl⟩

/-- Witness for C7 at a concrete snapshot. -/
theorem pipeline_deterministic_witness :
    (qualifyingAreas [⟨none, none, ("01001020100"), []⟩]).length
      = (qualifyingAreas [⟨none, none, ("01001020100"), []⟩]).length ∧
    qualifying_fips [⟨none, none, ("01001020100"), []⟩]
      = qualifying_fips [⟨none, none, ("01001020100"), []⟩] ∧
    get_df_stats [⟨none, none, ("01001020100"), []⟩]
      = get_df_stats [⟨none, none, ("01001020100"), []⟩] :=
  pipeline_deterministic [⟨none, none, ("01001020100"), []⟩]
    [⟨none, none, ("01001020100"), []⟩] rfl

/-- Claim C9: the QCEW industry filter is a pure row selection — the
filtered dataframe is a sublist of the input (no row added or modified),
every row it keeps has an industry code in `{"10"} ∪ NAICS_CODES_TO_CONSIDER`,
and every input row with an industry code in that set is retained. -/
theorem filtered_qcew_row_selection (df : List QcewRow) :
    (filtered_qcew_df df).Sublist df ∧
    (∀ r ∈ filtered_qcew_df df,
      r.industry_code ∈ [("10")] ++ NAICS_CODES_TO_CONSIDER) ∧
    ∀ r ∈ df,
      r.industry_code ∈ [("10")] ++ NAICS_CODES_TO_CONSIDER →
        r ∈ filtered_qcew_df df := by
  refine ⟨List.filter_sublist df, ?_, ?_⟩
  · intro r hr
    have h := List.of_mem_filter hr
    simpa using h
  · intro r hr hcode
    exact List.mem_filter.mpr ⟨hr, by simpa using hcode⟩

/-- Witness for C9: a total-employment row (industry code `10`) is retained
by the filter on a concrete two-row dataframe. -/
theorem filtered_qcew_row_selection_witness :
    (⟨("10"), ("X"), 2010⟩ : QcewRow)
      ∈ filtered_qcew_df [⟨("10"), ("X"), 2010⟩, ⟨("999"), ("Y"), 2011⟩] :=
  (filtered_qcew_row_selection
      [⟨("10"), ("X"), 2010⟩, ⟨("999"), ("Y"), 2011⟩]).2.2
    ⟨("10"), ("X"), 2010⟩ (by simp) (by decide)

/-- Claim C10: in the per-year QCEW assembly loop, a year whose extraction is
empty is skipped, and the assembled dataframe equals the concatenation, in
year-list order, of the transforms of exactly the years with non-empty
extractions. -/
theorem qcew_assembly_concat_nonempty_years (years : List Nat)
    (ex : Nat → List QcewRow) (tr : List QcewRow → List QcewRow) :
    qcew_assembly years ex tr
      = (years.filter fun y => !(ex y).isEmpty).flatMap fun y => tr (ex y) :=
  qcew_assembly_eq_flatMap years ex tr

end EnergyComms
